import Mathlib

/-!
Verification of the RWA AI pricing engine core (`ai_pricing`), shallowly
embedded in Lean.  Python dicts, lists and scalars are represented by the
`JVal` type; Python exceptions by `Except PyExc`; machine floats by exact
rationals (the claims under study are structural, not about rounding).
External I/O (HTTP responses, the text-generation call, the embedding
provider, the blockchain helper, the filesystem) is supplied through
explicit oracle arguments, so every embedded function is a pure, executable
Lean function of its inputs and oracles.
-/

namespace AIPricing

/-- Python/JSON values as seen by the pricing engine. -/
inductive JVal where
  | null : JVal
  | bool : Bool → JVal
  | num : ℚ → JVal
  | str : String → JVal
  | arr : List JVal → JVal
  | obj : List (String × JVal) → JVal

/-- Python exceptions relevant to the embedded code. -/
inductive PyExc where
  | raised : String → PyExc
  | keyError : String → PyExc
  | typeError : String → PyExc
  | valueError : String → PyExc
  | attributeError : String → PyExc
  | validationError : String → PyExc
  | ioError : String → PyExc
  | zeroDivisionError : String → PyExc
deriving DecidableEq

/-- Message carried by `str(e)` for an exception. -/
def excMsg : PyExc → String
  | .raised m => m
  | .keyError k => "\x27" ++ k ++ "\x27"
  | .typeError m => m
  | .valueError m => m
  | .attributeError m => m
  | .validationError m => m
  | .ioError m => m
  | .zeroDivisionError m => m

/-- Lookup in an association list, first match (Python dicts in this model
carry no duplicate keys; the JSON loader collapses duplicates last-wins). -/
def lookupKV : List (String × JVal) → String → Option JVal
  | [], _ => none
  | (k, v) :: rest, key => if k = key then some v else lookupKV rest key

/-- Remove every entry with the given key. -/
def eraseKey (fs : List (String × JVal)) (k : String) : List (String × JVal) :=
  fs.filter (fun p => p.1 ≠ k)

/-- Prepend a member to already-assembled later members, with Python dict
literal semantics: the first occurrence fixes the position, the last
occurrence fixes the value. -/
def consKV (k : String) (v : JVal) (fs : List (String × JVal)) : List (String × JVal) :=
  match lookupKV fs k with
  | some v2 => (k, v2) :: eraseKey fs k
  | none => (k, v) :: fs

/-- Python truthiness of a value. -/
def truthy : JVal → Bool
  | .null => false
  | .bool b => b
  | .num q => q ≠ 0
  | .str s => s ≠ ""
  | .arr xs => !xs.isEmpty
  | .obj fs => !fs.isEmpty

/-- Python `d.get(key, default)`: requires a dict, else AttributeError. -/
def pyDictGet (v : JVal) (key : String) (dflt : JVal) : Except PyExc JVal :=
  match v with
  | .obj fs => .ok ((lookupKV fs key).getD dflt)
  | _ => .error (.attributeError "object has no attribute get")

/-- Lookup with default on a dict already known to be an object. -/
def jGetD (fs : List (String × JVal)) (key : String) (dflt : JVal) : JVal :=
  (lookupKV fs key).getD dflt

/-- Python subscript `v[key]` with a string key. -/
def pyGetItem (v : JVal) (key : String) : Except PyExc JVal :=
  match v with
  | .obj fs =>
    match lookupKV fs key with
    | some x => .ok x
    | none => .error (.keyError key)
  | .arr _ => .error (.typeError "list indices must be integers")
  | _ => .error (.typeError "object is not subscriptable")

/-- Fuel-driven split of a character list on a non-overlapping separator
(semantics of Python `str.split(sep)`); structurally recursive so that it
reduces definitionally. -/
def splitOnGo (sep : List Char) : ℕ → List Char → List (List Char)
  | _, [] => [[]]
  | 0, cs => [cs]
  | fuel + 1, c :: rest =>
    if sep ≠ [] ∧ (c :: rest).take sep.length = sep then
      [] :: splitOnGo sep fuel ((c :: rest).drop sep.length)
    else
      match splitOnGo sep fuel rest with
      | g :: gs => (c :: g) :: gs
      | [] => [[c]]

/-- Split a character list on a separator. -/
def splitOnL (sep cs : List Char) : List (List Char) :=
  if sep = [] then [cs] else splitOnGo sep (cs.length + 1) cs

/-- Characters stripped by Python `str.strip()` (ASCII whitespace including
vertical tab and form feed). -/
def isStripWs (c : Char) : Bool :=
  c.isWhitespace ∨ c = Char.ofNat 11 ∨ c = Char.ofNat 12

/-- Python `str.strip()` on a character list. -/
def stripChars (cs : List Char) : List Char :=
  ((cs.dropWhile isStripWs).reverse.dropWhile isStripWs).reverse

/-- Python membership test `key in v` for a string key: key lookup on dicts,
element membership on lists, substring test on strings, TypeError otherwise. -/
def pyIn (key : String) (v : JVal) : Except PyExc Bool :=
  match v with
  | .obj fs => .ok (fs.any (fun p => p.1 = key))
  | .arr xs => .ok (xs.any (fun x => match x with | .str s => s = key | _ => false))
  | .str s => .ok ((splitOnL key.data s.data).length > 1)
  | _ => .error (.typeError "argument is not iterable")

/-- Digit characters to a natural number (most significant first). -/
def digitsToNat (ds : List Char) : ℕ :=
  ds.foldl (fun acc c => acc * 10 + (c.toNat - 48)) 0

/-- Take leading decimal digits. -/
def takeDigits : List Char → (List Char × List Char)
  | [] => ([], [])
  | c :: rest =>
    if c.isDigit then
      let (ds, r) := takeDigits rest
      (c :: ds, r)
    else
      ([], c :: rest)

/-- Rational from integer part, fraction digits, and decimal exponent:
`(-1)^sign * (ip . frac) * 10^ex`, built through `mkRat` on integer
arithmetic only. -/
def mkRat10 (sign : Bool) (ip : ℕ) (frac : List Char) (ex : ℤ) : ℚ :=
  let mant : ℤ := ((ip * 10 ^ frac.length + digitsToNat frac : ℕ) : ℤ)
  let mant2 : ℤ := if sign then -mant else mant
  if 0 ≤ ex then
    mkRat (mant2 * 10 ^ ex.toNat) (10 ^ frac.length)
  else
    mkRat mant2 (10 ^ frac.length * 10 ^ (-ex).toNat)

/-- Parse an optional exponent part `e|E [+|-] digits` (shared by the JSON
number grammar and Python float literals). -/
def takeExponent : List Char → Option (ℤ × List Char)
  | c :: rest =>
    if c = Char.ofNat 101 ∨ c = Char.ofNat 69 then
      match rest with
      | s :: rest2 =>
        if s = Char.ofNat 43 then
          match takeDigits rest2 with
          | ([], _) => none
          | (ds, r) => some ((digitsToNat ds : ℤ), r)
        else if s = Char.ofNat 45 then
          match takeDigits rest2 with
          | ([], _) => none
          | (ds, r) => some (-(digitsToNat ds : ℤ), r)
        else
          match takeDigits rest with
          | ([], _) => none
          | (ds, r) => some ((digitsToNat ds : ℤ), r)
      | [] => none
    else some (0, c :: rest)
  | [] => some (0, [])

/-- Parse a JSON number token (RFC 8259 grammar: no leading plus, no bare
dot, no leading zeros). -/
def parseJsonNumber (cs : List Char) : Option (ℚ × List Char) :=
  let (sign, cs1) :=
    match cs with
    | c :: rest => if c = Char.ofNat 45 then (true, rest) else (false, cs)
    | [] => (false, cs)
  match takeDigits cs1 with
  | ([], _) => none
  | (ids, cs2) =>
    if ids.length > 1 ∧ ids.headD (Char.ofNat 48) = Char.ofNat 48 then none
    else
      let (frac, cs3) :=
        match cs2 with
        | c :: rest =>
          if c = Char.ofNat 46 then
            match takeDigits rest with
            | ([], _) => ([Char.ofNat 63], rest)
            | (ds, r) => (ds, r)
          else ([], cs2)
        | [] => ([], cs2)
      if frac = [Char.ofNat 63] then none
      else
        match takeExponent cs3 with
        | none => none
        | some (ex, cs4) => some (mkRat10 sign (digitsToNat ids) frac ex, cs4)

/-- JSON whitespace characters. -/
def isJsonWs (c : Char) : Bool :=
  c = Char.ofNat 32 ∨ c = Char.ofNat 9 ∨ c = Char.ofNat 10 ∨ c = Char.ofNat 13

/-- Skip JSON whitespace. -/
def skipWs : List Char → List Char
  | [] => []
  | c :: rest => if isJsonWs c then skipWs rest else c :: rest

/-- Hex digit value. -/
def hexVal (c : Char) : Option ℕ :=
  if c.isDigit then some (c.toNat - 48)
  else if 97 ≤ c.toNat ∧ c.toNat ≤ 102 then some (c.toNat - 87)
  else if 65 ≤ c.toNat ∧ c.toNat ≤ 70 then some (c.toNat - 55)
  else none

/-- Parse the body of a JSON string literal after the opening quote. -/
def parseStringBody : List Char → Option (List Char × List Char)
  | [] => none
  | c :: rest =>
    if c = Char.ofNat 34 then some ([], rest)
    else if c = Char.ofNat 92 then
      match rest with
      | [] => none
      | e :: rest2 =>
        let simpleEsc : Option Char :=
          if e = Char.ofNat 34 then some (Char.ofNat 34)
          else if e = Char.ofNat 92 then some (Char.ofNat 92)
          else if e = Char.ofNat 47 then some (Char.ofNat 47)
          else if e = Char.ofNat 110 then some (Char.ofNat 10)
          else if e = Char.ofNat 116 then some (Char.ofNat 9)
          else if e = Char.ofNat 114 then some (Char.ofNat 13)
          else if e = Char.ofNat 98 then some (Char.ofNat 8)
          else if e = Char.ofNat 102 then some (Char.ofNat 12)
          else none
        match simpleEsc with
        | some ch =>
          match parseStringBody rest2 with
          | some (tail, r) => some (ch :: tail, r)
          | none => none
        | none =>
          if e = Char.ofNat 117 then
            match rest2 with
            | h1 :: h2 :: h3 :: h4 :: rest3 =>
              match hexVal h1, hexVal h2, hexVal h3, hexVal h4 with
              | some a, some b, some c3, some d =>
                match parseStringBody rest3 with
                | some (tail, r) => some (Char.ofNat (a * 4096 + b * 256 + c3 * 16 + d) :: tail, r)
                | none => none
              | _, _, _, _ => none
            | _ => none
          else none
    else if c.toNat < 32 then none
    else
      match parseStringBody rest with
      | some (tail, r) => some (c :: tail, r)
      | none => none

mutual

/-- Fuel-bounded recursive-descent parser for one JSON value (mirrors what
Python `json.loads` accepts on the engine's inputs). -/
def parseJ : ℕ → List Char → Option (JVal × List Char)
  | 0, _ => none
  | fuel + 1, cs =>
    match skipWs cs with
    | [] => none
    | c :: rest =>
      if c = Char.ofNat 110 then
        match rest with
        | u :: l1 :: l2 :: r =>
          if u = Char.ofNat 117 ∧ l1 = Char.ofNat 108 ∧ l2 = Char.ofNat 108 then
            some (.null, r)
          else none
        | _ => none
      else if c = Char.ofNat 116 then
        match rest with
        | r1 :: u :: e1 :: r =>
          if r1 = Char.ofNat 114 ∧ u = Char.ofNat 117 ∧ e1 = Char.ofNat 101 then
            some (.bool true, r)
          else none
        | _ => none
      else if c = Char.ofNat 102 then
        match rest with
        | a :: l :: s :: e1 :: r =>
          if a = Char.ofNat 97 ∧ l = Char.ofNat 108 ∧ s = Char.ofNat 115 ∧ e1 = Char.ofNat 101 then
            some (.bool false, r)
          else none
        | _ => none
      else if c = Char.ofNat 34 then
        match parseStringBody rest with
        | some (chars, r) => some (.str (String.mk chars), r)
        | none => none
      else if c = Char.ofNat 91 then
        match skipWs rest with
        | d :: r2 =>
          if d = Char.ofNat 93 then some (.arr [], r2)
          else
            match parseArrItems fuel (d :: r2) with
            | some (xs, r3) => some (.arr xs, r3)
            | none => none
        | [] => none
      else if c = Char.ofNat 123 then
        match skipWs rest with
        | d :: r2 =>
          if d = Char.ofNat 125 then some (.obj [], r2)
          else
            match parseObjItems fuel (d :: r2) with
            | some (fs, r3) => some (.obj fs, r3)
            | none => none
        | [] => none
      else
        match parseJsonNumber (c :: rest) with
        | some (q, r) => some (.num q, r)
        | none => none

/-- Parse comma-separated array items up to the closing bracket. -/
def parseArrItems : ℕ → List Char → Option (List JVal × List Char)
  | 0, _ => none
  | fuel + 1, cs =>
    match parseJ fuel cs with
    | none => none
    | some (v, r) =>
      match skipWs r with
      | d :: r2 =>
        if d = Char.ofNat 93 then some ([v], r2)
        else if d = Char.ofNat 44 then
          match parseArrItems fuel r2 with
          | some (xs, r3) => some (v :: xs, r3)
          | none => none
        else none
      | [] => none

/-- Parse comma-separated object members up to the closing brace; duplicate
keys resolve last-wins, as in Python. -/
def parseObjItems : ℕ → List Char → Option (List (String × JVal) × List Char)
  | 0, _ => none
  | fuel + 1, cs =>
    match skipWs cs with
    | q :: r =>
      if q = Char.ofNat 34 then
        match parseStringBody r with
        | some (kchars, r2) =>
          match skipWs r2 with
          | col :: r3 =>
            if col = Char.ofNat 58 then
              match parseJ fuel r3 with
              | some (v, r4) =>
                match skipWs r4 with
                | d :: r5 =>
                  if d = Char.ofNat 125 then some ([(String.mk kchars, v)], r5)
                  else if d = Char.ofNat 44 then
                    match parseObjItems fuel r5 with
                    | some (fs, r6) => some (consKV (String.mk kchars) v fs, r6)
                    | none => none
                  else none
                | [] => none
              | none => none
            else none
          | [] => none
        | none => none
      else none
    | [] => none

end

/-- Python `json.loads` on a character list: parse a complete JSON document,
requiring only trailing whitespace after the value; `none` models
`json.JSONDecodeError`. -/
def jsonLoadsChars (cs : List Char) : Option JVal :=
  match parseJ (cs.length + 1) cs with
  | some (v, rest) => if skipWs rest = [] then some v else none
  | none => none

/-- Python `json.loads`. -/
def jsonLoads (s : String) : Option JVal :=
  jsonLoadsChars s.data

/-- Minimal decimal rendering of a rational: exact for integers and finite
decimals; other values (never produced by the code paths under study) render
as a fraction. -/
def ratStr (q : ℚ) : String :=
  if q.den = 1 then toString q.num
  else
    let n2 := (Nat.factorization q.den) 2
    let n5 := (Nat.factorization q.den) 5
    if 2 ^ n2 * 5 ^ n5 = q.den then
      let k := max n2 n5
      let scaled := q.num * ((10 : ℤ) ^ k / (q.den : ℤ))
      let sgn := if scaled < 0 then "-" else ""
      let digits := toString scaled.natAbs
      let padded :=
        if digits.length ≤ k then String.mk (List.replicate (k + 1 - digits.length) (Char.ofNat 48)) ++ digits
        else digits
      sgn ++ padded.take (padded.length - k) ++ "." ++ padded.drop (padded.length - k)
    else toString q.num ++ "/" ++ toString q.den

/-- Escape a string for JSON output (quote, backslash, control chars). -/
def jsonEscape (s : String) : String :=
  s.data.foldl
    (fun acc c =>
      if c = Char.ofNat 34 then acc ++ "\\\""
      else if c = Char.ofNat 92 then acc ++ "\\\\"
      else if c = Char.ofNat 10 then acc ++ "\\n"
      else if c = Char.ofNat 9 then acc ++ "\\t"
      else if c = Char.ofNat 13 then acc ++ "\\r"
      else acc ++ String.mk [c])
    ""

/-- Python `json.dumps` with default separators (exact rationals stand in
for IEEE float rendering). -/
def jsonDumps : JVal → String
  | .null => "null"
  | .bool b => if b then "true" else "false"
  | .num q => ratStr q
  | .str s => "\"" ++ jsonEscape s ++ "\""
  | .arr xs =>
    "[" ++ String.intercalate ", " (xs.attach.map (fun p => jsonDumps p.1)) ++ "]"
  | .obj fs =>
    "\x7b" ++
      String.intercalate ", "
        (fs.attach.map (fun p => "\"" ++ jsonEscape p.1.1 ++ "\": " ++ jsonDumps p.1.2)) ++
      "\x7d"
decreasing_by
  · have := List.sizeOf_lt_of_mem p.2
    simp only [JVal.arr.sizeOf_spec]
    omega
  · have h1 := List.sizeOf_lt_of_mem p.2
    have h2 : sizeOf p.1.2 < sizeOf p.1 := by
      obtain ⟨a, b⟩ := p.1
      simp only [Prod.mk.sizeOf_spec]
      omega
    simp only [JVal.obj.sizeOf_spec]
    omega

/-- Python `str(v)` for the values that reach it in this code base (string
passthrough; container rendering approximated by JSON syntax with Python
literals for None/True/False). -/
def pyStrJ : JVal → String
  | .str s => s
  | .null => "None"
  | .bool b => if b then "True" else "False"
  | .num q => ratStr q
  | v => jsonDumps v

/-- Python `float(str)`: sign, digits with optional dot on either side,
optional exponent (special spellings such as inf/nan are out of scope for
the inputs under study). -/
def pyFloatOfString (s : String) : Option ℚ :=
  let cs := skipWs s.data
  let (sign, cs1) :=
    match cs with
    | c :: rest =>
      if c = Char.ofNat 45 then (true, rest)
      else if c = Char.ofNat 43 then (false, rest)
      else (false, cs)
    | [] => (false, cs)
  let (ids, cs2) := takeDigits cs1
  let (frac, cs3) :=
    match cs2 with
    | c :: rest => if c = Char.ofNat 46 then takeDigits rest else ([], cs2)
    | [] => ([], cs2)
  if ids.isEmpty ∧ frac.isEmpty then none
  else
    match takeExponent cs3 with
    | none => none
    | some (ex, cs4) =>
      if skipWs cs4 = [] then some (mkRat10 sign (digitsToNat ids) frac ex)
      else none

/-- Python `float(v)` coercion as used by the engine and by pydantic. -/
def pyFloatE : JVal → Except PyExc ℚ
  | .num q => .ok q
  | .bool b => .ok (if b then 1 else 0)
  | .str s =>
    match pyFloatOfString s with
    | some q => .ok q
    | none => .error (.valueError ("could not convert string to float: " ++ s))
  | .null => .error (.typeError "float argument must be a string or a number")
  | .arr _ => .error (.typeError "float argument must be a string or a number")
  | .obj _ => .error (.typeError "float argument must be a string or a number")

/-- Python `int(str)` on a decimal literal. -/
def pyIntOfString (s : String) : Option ℤ :=
  let cs := skipWs s.data
  let (sign, cs1) :=
    match cs with
    | c :: rest =>
      if c = Char.ofNat 45 then (true, rest)
      else if c = Char.ofNat 43 then (false, rest)
      else (false, cs)
    | [] => (false, cs)
  match takeDigits cs1 with
  | ([], _) => none
  | (ds, r) =>
    if skipWs r = [] then
      some (if sign then -(digitsToNat ds : ℤ) else (digitsToNat ds : ℤ))
    else none

/-- Python `int(v)` coercion (floats truncate toward zero). -/
def pyIntE : JVal → Except PyExc ℤ
  | .num q => .ok (if 0 ≤ q then ⌊q⌋ else ⌈q⌉)
  | .bool b => .ok (if b then 1 else 0)
  | .str s =>
    match pyIntOfString s with
    | some z => .ok z
    | none => .error (.valueError ("invalid literal for int: " ++ s))
  | _ => .error (.typeError "int argument must be a string or a number")

/-- Failure record produced by every data source adapter: the dict literal
`\x7b"error": str(e)\x7d` from `data_sources.py`. -/
def errDict (e : PyExc) : JVal :=
  .obj [("error", .str (excMsg e))]

/-- Wrap an adapter body: a successful field list becomes the returned dict,
an exception becomes the `\x7b"error": str(e)\x7d` record of the blanket
`except` clause. -/
def objOrErr (r : Except PyExc (List (String × JVal))) : JVal :=
  match r with
  | .ok fs => .obj fs
  | .error e => errDict e

/-- Whether a value is a dict. -/
def isObj : JVal → Bool
  | .obj _ => true
  | _ => false

/-- Python iteration (`for x in v`): list elements, string characters, dict
keys; TypeError otherwise. -/
def pyIterate : JVal → Except PyExc (List JVal)
  | .arr xs => .ok xs
  | .str s => .ok (s.data.map (fun c => .str (String.mk [c])))
  | .obj fs => .ok (fs.map (fun p => .str p.1))
  | _ => .error (.typeError "object is not iterable")

/-- Python `v[:5]` followed by iteration, as in `_parse_alpha_vantage`. -/
def pySliceIter5 : JVal → Except PyExc (List JVal)
  | .arr xs => .ok (xs.take 5)
  | .str s => .ok ((s.data.take 5).map (fun c => .str (String.mk [c])))
  | _ => .error (.typeError "object is not subscriptable")

/-- Python `len(v)`. -/
def pyLen : JVal → Except PyExc ℕ
  | .arr xs => .ok xs.length
  | .str s => .ok s.length
  | .obj fs => .ok fs.length
  | _ => .error (.typeError "object has no len")

/-- Python `v[-k]` for positive `k` (negative indexing from the end). -/
def pyIndexNeg (v : JVal) (k : ℕ) : Except PyExc JVal :=
  match v with
  | .arr xs =>
    if h : k ≤ xs.length ∧ 0 < k then .ok (xs.get ⟨xs.length - k, by omega⟩)
    else .error (.raised "IndexError: list index out of range")
  | .str s =>
    if h : k ≤ s.length ∧ 0 < k then .ok (.str (String.mk [s.data.get ⟨s.length - k, by
      have := h.1
      have := h.2
      simp only [String.length] at *
      omega⟩]))
    else .error (.raised "IndexError: string index out of range")
  | .obj _ => .error (.keyError "-index")
  | _ => .error (.typeError "object is not subscriptable")

/-- Loop body of `_parse_alpha_vantage`: build `recent_sales` entries and the
running price total from the first five `top_gainers` items. -/
def parseAVLoop (now : String) : List JVal → Except PyExc (List JVal × ℚ)
  | [] => .ok ([], 0)
  | item :: rest => do
    let priceV ← pyDictGet item "price" (.num 0)
    let price ← pyFloatE priceV
    let tickerV ← pyDictGet item "ticker" (.str "unknown")
    let sale : JVal := .obj [("item", tickerV), ("price", .num price), ("date", .str now)]
    let (sales, total) ← parseAVLoop now rest
    .ok (sale :: sales, total + price)

/-- Try-block of `_parse_alpha_vantage`, producing the fields of the record
it returns. -/
def parseAlphaVantageBody (now : String) (data : JVal) :
    Except PyExc (List (String × JVal)) := do
  let hasTG ← pyIn "top_gainers" data
  if hasTG then do
    let tg ← pyGetItem data "top_gainers"
    let items ← pySliceIter5 tg
    let (sales, total) ← parseAVLoop now items
    let avg : ℚ := if !sales.isEmpty then total / (sales.length : ℚ) else 0
    let lastUpd ← pyDictGet data "last_updated" (.str "Unknown")
    .ok [("recent_sales", .arr sales), ("average_price", .num avg),
         ("price_trend", lastUpd)]
  else
    .ok [("recent_sales", .arr []), ("average_price", .num 0),
         ("price_trend", .str "Unknown")]

/-- Embeds `DataSourceAdapter._parse_alpha_vantage`: its try-block with the
blanket `except` returning `\x7b"error": str(e)\x7d`. -/
def parseAlphaVantage (now : String) (data : JVal) : JVal :=
  objOrErr (parseAlphaVantageBody now data)

/-- Embeds `DataSourceAdapter.fetch_auction_data`: the network/JSON step is
the oracle outcome; any exception from it (or from parsing) yields the
`\x7b"error": str(e)\x7d` record. -/
def fetchAuctionData (now : String) (outcome : Except PyExc JVal) : JVal :=
  objOrErr (do
    let data ← outcome
    parseAlphaVantageBody now data)

/-- Hashable Python dict keys (numeric cross-type equality folds booleans
into numbers, as in Python). -/
inductive PyKey where
  | s : String → PyKey
  | n : ℚ → PyKey
  | none0 : PyKey
deriving DecidableEq

/-- Convert a value to a dict key; unhashable containers raise. -/
def toPyKey : JVal → Except PyExc PyKey
  | .str s => .ok (.s s)
  | .num q => .ok (.n q)
  | .bool b => .ok (.n (if b then 1 else 0))
  | .null => .ok .none0
  | .arr _ => .error (.typeError "unhashable type: list")
  | .obj _ => .error (.typeError "unhashable type: dict")

/-- Rendering of a dict key back to a string label. -/
def pyKeyStr : PyKey → String
  | .s s => s
  | .n q => ratStr q
  | .none0 => "None"

/-- Increment a counter in an insertion-ordered association list. -/
def bumpCount {α : Type} [DecidableEq α] (m : List (α × ℕ)) (k : α) : List (α × ℕ) :=
  if m.any (fun p => p.1 = k) then
    m.map (fun p => if p.1 = k then (p.1, p.2 + 1) else p)
  else
    m ++ [(k, 1)]

/-- Stable insertion into a descending-by-count list (later arrivals go after
equals), matching Python `sorted(..., reverse=True)` stability. -/
def insertDescBy {α : Type} (x : α × ℕ) : List (α × ℕ) → List (α × ℕ)
  | [] => [x]
  | y :: ys => if x.2 > y.2 then x :: y :: ys else y :: insertDescBy x ys

/-- Stable descending sort by count. -/
def sortDescBy {α : Type} (xs : List (α × ℕ)) : List (α × ℕ) :=
  xs.foldl (fun acc x => insertDescBy x acc) []

/-- Fields of the zero-shape sentiment record returned for empty input and
on any exception inside `_analyze_sentiment`. -/
def zeroSentiment : List (String × JVal) :=
  [("overall_sentiment", .num 0), ("mention_volume", .num 0),
   ("trending_keywords", .arr []), ("source_breakdown", .obj [])]

/-- Python `s.lower().split()` keyword extraction: whitespace split, empties
dropped, words longer than four characters kept. -/
def keywordsOf (s : String) : List String :=
  ((s.toLower.split (fun c => c.isWhitespace)).filter (fun w => w ≠ "")).filter
    (fun w => w.length > 4)

/-- Loop body of `_analyze_sentiment`: accumulate texts, per-source counts
and keyword counts over the article list. -/
def sentimentLoop :
    List JVal → List String → List (PyKey × ℕ) → List (String × ℕ) →
    Except PyExc (List String × List (PyKey × ℕ) × List (String × ℕ))
  | [], texts, sources, keywords => .ok (texts, sources, keywords)
  | article :: rest, texts, sources, keywords => do
    let titleV ← pyDictGet article "title" (.str "")
    let descV ← pyDictGet article "description" (.str "")
    let srcDict ← pyDictGet article "source" (.obj [])
    let srcV ← pyDictGet srcDict "name" (.str "unknown")
    if truthy titleV ∧ truthy descV then do
      let title ← match titleV with
        | .str s => Except.ok s
        | _ => Except.error (.typeError "can only concatenate str to str")
      let desc ← match descV with
        | .str s => Except.ok s
        | _ => Except.error (.typeError "can only concatenate str to str")
      let text := title ++ " " ++ desc
      let srcKey ← toPyKey srcV
      sentimentLoop rest (texts ++ [text]) (bumpCount sources srcKey)
        ((keywordsOf text).foldl bumpCount keywords)
    else
      sentimentLoop rest texts sources keywords

/-- Try-block of `_analyze_sentiment` (the sentiment polarity of a text is
the external TextBlob computation, supplied as an oracle function). -/
def analyzeSentimentBody (sentimentOf : String → ℚ) (articles : JVal) :
    Except PyExc (List (String × JVal)) := do
  if !truthy articles then
    .ok zeroSentiment
  else do
    let items ← pyIterate articles
    let (texts, sources, keywords) ← sentimentLoop items [] [] []
    let sentiments := texts.map sentimentOf
    let overall : ℚ :=
      if !sentiments.isEmpty then sentiments.sum / (sentiments.length : ℚ) else 0
    let sorted := sortDescBy keywords
    let top := (sorted.take 10).map (fun p => (JVal.str p.1 : JVal))
    let totalMentions := (sources.map (fun p => p.2)).sum
    let breakdown := sources.map
      (fun p => (pyKeyStr p.1, JVal.num ((p.2 : ℚ) / (totalMentions : ℚ))))
    .ok [("overall_sentiment", .num overall),
         ("mention_volume", .num (texts.length : ℚ)),
         ("trending_keywords", .arr top),
         ("source_breakdown", .obj breakdown)]

/-- Embeds `DataSourceAdapter._analyze_sentiment`: any exception inside the
try-block degrades to the zero-shape record (not an error dict). -/
def analyzeSentiment (sentimentOf : String → ℚ) (articles : JVal) :
    List (String × JVal) :=
  match analyzeSentimentBody sentimentOf articles with
  | .ok fs => fs
  | .error _ => zeroSentiment

/-- Embeds `DataSourceAdapter.fetch_sentiment_analysis`. -/
def fetchSentimentAnalysis (sentimentOf : String → ℚ) (outcome : Except PyExc JVal) : JVal :=
  objOrErr (do
    let resp ← outcome
    let arts ← pyDictGet resp "articles" (.arr [])
    pure (analyzeSentiment sentimentOf arts))

/-- Round half-to-even to an integer (Python `round` on exact values). -/
def roundHalfEven (x : ℚ) : ℤ :=
  let f := ⌊x⌋
  let r := x - (f : ℚ)
  if r < 1 / 2 then f
  else if r > 1 / 2 then f + 1
  else if f % 2 = 0 then f else f + 1

/-- Python `round(x, 2)`. -/
def round2 (x : ℚ) : ℚ :=
  (roundHalfEven (x * 100) : ℚ) / 100

/-- Inner try of the FRED inflation computation, raising ValueError or
ZeroDivisionError when the CPI values do not divide. -/
def inflationCalc (latest prevYear : JVal) : Except PyExc ℚ := do
  let curV ← pyGetItem latest "value"
  let cur ← pyFloatE curV
  let yaV ← pyGetItem prevYear "value"
  let ya ← pyFloatE yaV
  if ya = 0 then
    .error (.zeroDivisionError "float division by zero")
  else
    .ok ((cur - ya) / ya * 100)

/-- Try-block of `fetch_economic_indicators` after the network/JSON oracle. -/
def econBody (now : String) (data : JVal) : Except PyExc (List (String × JVal)) := do
  let obsV ← pyDictGet data "observations" (.arr [])
  if truthy obsV then do
    let latest ← pyIndexNeg obsV 1
    let n ← pyLen obsV
    let _prevMonth ← if n > 1 then pyIndexNeg obsV 2 else .ok .null
    let prevYear ← if n > 12 then pyIndexNeg obsV 13 else .ok .null
    let inflation ←
      if truthy prevYear then do
        let hv1 ← pyIn "value" latest
        let hv2 ← if hv1 then pyIn "value" prevYear else pure false
        if hv1 ∧ hv2 then
          match inflationCalc latest prevYear with
          | .ok q => pure q
          | .error (.valueError _) => pure 0
          | .error (.zeroDivisionError _) => pure 0
          | .error e => throw e
        else pure (0 : ℚ)
      else pure (0 : ℚ)
    let cpiV ← pyDictGet latest "value" .null
    let dateV ← pyDictGet latest "date" .null
    .ok [("inflation_rate", .num (round2 inflation)), ("latest_cpi", cpiV),
         ("cpi_date", dateV), ("data_source", .str "FRED")]
  else
    .ok [("inflation_rate", .num 0), ("latest_cpi", .num 0),
         ("cpi_date", .str now), ("data_source", .str "FRED")]

/-- Embeds `DataSourceAdapter.fetch_economic_indicators`. -/
def fetchEconomicIndicators (now : String) (outcome : Except PyExc JVal) : JVal :=
  objOrErr (do
    let data ← outcome
    econBody now data)

/-- Try-block of `fetch_nft_data` after the network/JSON oracle. -/
def nftBody (data : JVal) : Except PyExc (List (String × JVal)) := do
  let hd ← pyIn "detail" data
  let throttled ←
    if hd then do
      let d ← pyGetItem data "detail"
      pyIn "Request was throttled" d
    else pure false
  if throttled then
    .ok [("error", .str "Rate limit reached")]
  else do
    let nameV ← pyDictGet data "name" (.str "Unknown")
    let descV ← pyDictGet data "description" (.str "")
    let imgV ← pyDictGet data "image_url" (.str "")
    let permV ← pyDictGet data "permalink" (.str "")
    let acV ← pyDictGet data "asset_contract" (.obj [])
    let addrV ← pyDictGet acV "address" (.str "")
    let tokV ← pyDictGet data "token_id" (.str "")
    let saleV ← pyDictGet data "last_sale" (.obj [])
    let traitsV ← pyDictGet data "traits" (.arr [])
    let collV ← pyDictGet data "collection" (.obj [])
    let collNameV ← pyDictGet collV "name" (.str "")
    let collDescV ← pyDictGet collV "description" (.str "")
    let collStatsV ← pyDictGet collV "stats" (.obj [])
    .ok [("name", nameV), ("description", descV), ("image_url", imgV),
         ("permalink", permV), ("contract_address", addrV),
         ("token_id", tokV), ("last_sale", saleV), ("traits", traitsV),
         ("collection", .obj [("name", collNameV), ("description", collDescV),
                              ("stats", collStatsV)])]

/-- Embeds `DataSourceAdapter.fetch_nft_data`. -/
def fetchNftData (outcome : Except PyExc JVal) : JVal :=
  objOrErr (do
    let data ← outcome
    nftBody data)

/-- The pydantic `PriceSignal` model from `schemas.py`: plain float fields
with no range constraints, optional explanation and trend. -/
structure PriceSignal where
  assetId : String
  price : ℚ
  confidenceScore : ℚ
  timestamp : String
  factors : List (String × ℚ)
  explanation : Option String
  trend : Option String
deriving DecidableEq

/-- Pydantic float-field validation (coercion like `float(v)`). -/
def pydFloat (v : JVal) : Except PyExc ℚ :=
  match pyFloatE v with
  | .ok q => .ok q
  | .error _ => .error (.validationError "value is not a valid float")

/-- Pydantic validation for the `factors : Dict[str, float]` field. -/
def pydFactors : JVal → Except PyExc (List (String × ℚ))
  | .obj fs =>
    fs.foldr
      (fun p acc => do
        let q ← pydFloat p.2
        let rest ← acc
        pure ((p.1, q) :: rest))
      (.ok [])
  | _ => .error (.validationError "value is not a valid dict")

/-- Construct and validate a `PriceSignal` as pydantic does; `explanation`
and `trend` are never passed by the engine and default to `None`. -/
def mkPriceSignal (assetId : String) (priceV confV : JVal) (timestamp : String)
    (factorsV : JVal) : Except PyExc PriceSignal := do
  let price ← pydFloat priceV
  let conf ← pydFloat confV
  let factors ← pydFactors factorsV
  .ok ⟨assetId, price, conf, timestamp, factors, none, none⟩

/-- External collaborators of one `get_asset_price` call: the four HTTP/JSON
responses (or raised exceptions), the TextBlob polarity function, the three
blockchain helper calls, and the text-generation call. -/
structure Oracles where
  auction : Except PyExc JVal
  sentiment : Except PyExc JVal
  economic : Except PyExc JVal
  nft : Except PyExc JVal
  sentimentOf : String → ℚ
  owner : Except PyExc JVal
  contractInfo : Except PyExc JVal
  tokenUri : Except PyExc JVal
  generation : Except PyExc String

/-- Default metadata substituted when the caller passes none (or a falsy
empty dict). -/
def defaultMetadata (assetId : String) : List (String × JVal) :=
  [("id", .str assetId), ("category", .str "art"), ("initial_price", .num 10000)]

/-- The JSON-decode attempt of `get_asset_price`: first fenced block (with
optional `json` tag stripped) if a fence is present, else the whole trimmed
text; `none` is the `json.JSONDecodeError` case. -/
def extractAttempt (resultText : String) : Option JVal :=
  let parts := splitOnL ("```".data) resultText.data
  if parts.length > 1 then
    let jsonText := (parts.drop 1).headD []
    let jsonText2 :=
      if jsonText.take 4 = "json".data then stripChars (jsonText.drop 4) else jsonText
    jsonLoadsChars (stripChars jsonText2)
  else
    jsonLoadsChars (stripChars resultText.data)

/-- Structured-result extraction from the raw generation text; a JSON decode
failure yields the hard-coded fallback dict fed from the metadata's
`initial_price`. -/
def extractParsed (resultText : String) (md : List (String × JVal)) : JVal :=
  match extractAttempt resultText with
  | some v => v
  | none =>
    .obj [("price", jGetD md "initial_price" (.num 10000)),
          ("confidence_score", .num (1 / 2)),
          ("factors", .obj [("fallback", .num 1)]),
          ("explanation", .str "Error parsing LLM response"),
          ("trend", .str "stable")]

/-- The blockchain-enrichment block of `get_asset_price`: consult the chain
helper only when the NFT record carries a truthy contract address. -/
def blockchainSection (nftData : JVal) (o : Oracles) : Except PyExc JVal := do
  let hasCA ← pyIn "contract_address" nftData
  let go ←
    if hasCA then do
      let ca ← pyGetItem nftData "contract_address"
      pure (truthy ca)
    else pure false
  if go then do
    let tokV ← pyDictGet nftData "token_id" (.str "1")
    let _tokenId ← pyIntE tokV
    let ownerV ← o.owner
    let infoV ← o.contractInfo
    let uriV ← o.tokenUri
    .ok (.obj [("available", .bool true), ("owner", ownerV),
               ("contract_info", infoV), ("token_uri", uriV)])
  else
    .ok (.obj [("available", .bool false)])

/-- The four signal records of one request, one per source kind, each
computed from its own oracle only (the tasks are all created before any is
awaited, so no record's input depends on another's completion). -/
def aggregateRecords (now : String) (o : Oracles) : JVal × JVal × JVal × JVal :=
  (fetchAuctionData now o.auction,
   fetchSentimentAnalysis o.sentimentOf o.sentiment,
   fetchEconomicIndicators now o.economic,
   fetchNftData o.nft)

/-- The try-block of `get_asset_price` after metadata defaulting: aggregate
the four sources, enrich with chain data, call generation, extract the
structured result and build the `PriceSignal`.  The prompt string itself
only feeds the generation oracle and is elided. -/
def mainPath (assetId : String) (md : List (String × JVal)) (o : Oracles)
    (now : String) : Except PyExc PriceSignal := do
  let _category := jGetD md "category" (.str "art")
  let (auctionData, sentimentData, economicData, nftData) := aggregateRecords now o
  let _ := auctionData
  let _ := sentimentData
  let _ := economicData
  let _blockchainData ← blockchainSection nftData o
  let resultText ← o.generation
  let parsed := extractParsed resultText md
  let priceV ← pyGetItem parsed "price"
  let price ← pyFloatE priceV
  let confV ← pyGetItem parsed "confidence_score"
  let conf ← pyFloatE confV
  let factorsV ← pyGetItem parsed "factors"
  mkPriceSignal assetId (.num price) (.num conf) now factorsV

/-- The catch-all handler of `get_asset_price`: a `PriceSignal` built from
the metadata's `initial_price` (default 10000), confidence 0.5 and factors
`\x7b"error": 1.0\x7d`; pydantic validation of this construction can itself
fail and then propagates. -/
def handlerSignal (assetId : String) (md : List (String × JVal)) (now : String) :
    Except PyExc PriceSignal :=
  mkPriceSignal assetId (jGetD md "initial_price" (.num 10000)) (.num (1 / 2)) now
    (.obj [("error", .num 1)])

/-- Metadata defaulting at the top of `get_asset_price`: `None` and the
falsy empty dict are replaced by the default metadata. -/
def effectiveMd (assetId : String) : Option (List (String × JVal)) → List (String × JVal)
  | none => defaultMetadata assetId
  | some m => if m.isEmpty then defaultMetadata assetId else m

/-- Embeds `AIPricingEngine.get_asset_price`. -/
def getAssetPrice (assetId : String) (assetMetadata : Option (List (String × JVal)))
    (o : Oracles) (now : String) : Except PyExc PriceSignal :=
  let md := effectiveMd assetId assetMetadata
  match mainPath assetId md o now with
  | .ok s => .ok s
  | .error _ => handlerSignal assetId md now

/-- A loaded FAISS flat index: its dimension and its stored vectors, in
insertion order (`ntotal` is the list length). -/
structure IndexData where
  dim : ℕ
  vecs : List (List ℚ)
deriving DecidableEq

/-- One entry of `documents.json`: the dict
`\x7b"text": ..., "metadata": \x7b"source": ..., "timestamp": ...\x7d\x7d`. -/
structure Document where
  text : String
  source : JVal
  timestamp : String

/-- In-memory knowledge store state of the engine (`self.index`,
`self.documents`). -/
structure EngineState where
  index : Option IndexData
  documents : List Document

/-- Durable state at the configured path `faiss_index/`: directory
existence, `index.faiss` and `documents.json`. -/
structure FS where
  dirExists : Bool
  indexFile : Option IndexData
  docsFile : Option (List Document)

/-- Embeds `AIPricingEngine.init_vector_store`: load both artifacts when the
directory exists (any read failure degrades to an empty store), else create
an empty index of the configured dimension.  No record-count parity check is
performed on a successful load. -/
def initVectorStore (fs : FS) (dim : ℕ) : EngineState :=
  if fs.dirExists then
    match fs.indexFile, fs.docsFile with
    | some idx, some docs => ⟨some idx, docs⟩
    | _, _ => ⟨some ⟨dim, []⟩, []⟩
  else
    ⟨some ⟨dim, []⟩, []⟩

/-- Behavior of the embedding step for one ingest: the model object may be
absent (engine fell back to `None` at startup), the provider call may fail,
or it yields a vector. -/
inductive EmbedOutcome where
  | noModel : EmbedOutcome
  | providerFail : EmbedOutcome
  | vec : List ℚ → EmbedOutcome

/-- Embeds `self.embedding_model.encode([t])[0]`: a missing model raises,
while `LightEmbeddingModel.encode` swallows provider failures and returns a
zero vector of the configured dimension. -/
def encodeOne (dim : ℕ) : EmbedOutcome → Except PyExc (List ℚ)
  | .noModel => .error (.attributeError "NoneType object has no attribute encode")
  | .providerFail => .ok (List.replicate dim 0)
  | .vec v => .ok v

/-- Oracle bundle for one ingest call: the embedding step, the two write
outcomes, and the wall clock. -/
structure IngestOutcome where
  embed : EmbedOutcome
  writeIndexOk : Bool
  writeDocsOk : Bool
  now : String

/-- Text stored for an update: JSON dump of a dict content, a string content
verbatim, else the string rendering of the whole payload. -/
def dataText (data : List (String × JVal)) : String :=
  match lookupKV data "content" with
  | some (.obj fs) => jsonDumps (.obj fs)
  | some (.str s) => s
  | _ => pyStrJ (.obj data)

/-- Success result dict of `update_knowledge_base`. -/
def kbSuccess (sourceName : JVal) : JVal :=
  .obj [("status", .str "success"),
        ("message", .str ("Updated knowledge base with " ++ pyStrJ sourceName ++ " data"))]

/-- Embeds `AIPricingEngine.update_knowledge_base`.  Returns the state, the
filesystem and the result dict; an exception anywhere in the try-block is
caught and reported as `\x7b"error": str(e)\x7d`, leaving behind whatever
mutations had already happened (append-then-persist is not atomic). -/
def updateKnowledgeBase (st : EngineState) (fs : FS) (dim : ℕ)
    (data : List (String × JVal)) (oc : IngestOutcome) :
    EngineState × FS × JVal :=
  let sourceName := jGetD data "source" (.str "unknown")
  let doc : Document := ⟨dataText data, sourceName, oc.now⟩
  match encodeOne dim oc.embed with
  | .error e => (st, fs, errDict e)
  | .ok emb =>
    match st.index with
    | none =>
      let docs1 := [doc]
      if emb.length ≠ dim then
        (⟨some ⟨dim, []⟩, docs1⟩, fs, errDict (.raised "add: dimension mismatch"))
      else
        let idx1 : IndexData := ⟨dim, [emb]⟩
        let fs1 : FS := ⟨true, fs.indexFile, fs.docsFile⟩
        if !oc.writeIndexOk then
          (⟨some idx1, docs1⟩, fs1, errDict (.ioError "write_index failed"))
        else
          let fs2 : FS := ⟨true, some idx1, fs.docsFile⟩
          if !oc.writeDocsOk then
            (⟨some idx1, docs1⟩, fs2, errDict (.ioError "documents dump failed"))
          else
            (⟨some idx1, docs1⟩, ⟨true, some idx1, some docs1⟩, kbSuccess sourceName)
    | some idx =>
      let docs1 := st.documents ++ [doc]
      if emb.length ≠ idx.dim then
        (⟨some idx, docs1⟩, fs, errDict (.raised "add: dimension mismatch"))
      else
        let idx1 : IndexData := ⟨idx.dim, idx.vecs ++ [emb]⟩
        if !fs.dirExists then
          (⟨some idx1, docs1⟩, fs, errDict (.ioError "could not open faiss_index/index.faiss"))
        else if !oc.writeIndexOk then
          (⟨some idx1, docs1⟩, fs, errDict (.ioError "write_index failed"))
        else
          let fs1 : FS := ⟨true, some idx1, fs.docsFile⟩
          if !oc.writeDocsOk then
            (⟨some idx1, docs1⟩, fs1, errDict (.ioError "documents dump failed"))
          else
            (⟨some idx1, docs1⟩, ⟨true, some idx1, some docs1⟩, kbSuccess sourceName)

/-- Sequential execution of ingest calls.  `update_knowledge_base` contains
no `await` between entry and return, so under the engine's cooperative
event-loop scheduling each call's append-then-persist section runs without
interleaving: any concurrent execution of N calls is the sequential
execution of their bodies in some scheduler-chosen order. -/
def runIngests (dim : ℕ) (start : EngineState × FS) :
    List (List (String × JVal) × IngestOutcome) → EngineState × FS
  | [] => start
  | (data, oc) :: rest =>
    let (st1, fs1, _) := updateKnowledgeBase start.1 start.2 dim data oc
    runIngests dim (st1, fs1) rest

/-- A well-formed ingest request for dimension `dim`: the embedding succeeds
with a vector of the right dimension and both writes succeed. -/
def okIngestB (dim : ℕ) (req : List (String × JVal) × IngestOutcome) : Bool :=
  (match req.2.embed with
   | .vec v => v.length = dim
   | _ => false) &&
    req.2.writeIndexOk && req.2.writeDocsOk

/-- The document that one ingest call appends for a given payload and
clock. -/
def mkDocument (req : List (String × JVal) × IngestOutcome) : Document :=
  ⟨dataText req.1, jGetD req.1 "source" (.str "unknown"), req.2.now⟩

/-- Oracle bundle in which all four data sources and the blockchain helper
raise (everything offline) and only the generation outcome varies; used to
instantiate theorems at concrete inputs. -/
def offlineOracles (g : Except PyExc String) : Oracles :=
  ⟨.error (.raised "network down"), .error (.raised "network down"),
   .error (.raised "network down"), .error (.raised "network down"),
   fun _ => 0, .error (.raised "rpc down"), .error (.raised "rpc down"),
   .error (.raised "rpc down"), g⟩

/-- Metadata whose `initial_price`, if present, is numeric, so that the
fallback and catch-all constructions validate. -/
def benignPriceMd (md : List (String × JVal)) : Bool :=
  match lookupKV md "initial_price" with
  | none => true
  | some (.num _) => true
  | some _ => false

/-- The price used by the fallback and catch-all constructions:
`initial_price` if present, else the literal 10000. -/
def initialPriceOf (md : List (String × JVal)) : ℚ :=
  match lookupKV md "initial_price" with
  | some (.num q) => q
  | _ => 10000

/-! Theorems. -/

/-- Every wrapped adapter result is a dict: either the success fields or the
error record. -/
theorem isObj_objOrErr (r : Except PyExc (List (String × JVal))) :
    isObj (objOrErr r) = true := by
  cases r <;> rfl

/-- C4: for every behavior of the four source oracles — including all four
raising — the aggregated context holds exactly one record per source kind
(market, sentiment, macro, chain metadata), each a dict, so no source's
failure ever suppresses another's record; each record is a function of its
own oracle alone, reflecting that all four tasks are created before any is
awaited, and `mainPath` consumes the whole aggregate before the generation
step. -/
theorem C4_per_source_record (now : String) (o : Oracles) :
    isObj (aggregateRecords now o).1 = true ∧
    isObj (aggregateRecords now o).2.1 = true ∧
    isObj (aggregateRecords now o).2.2.1 = true ∧
    isObj (aggregateRecords now o).2.2.2 = true := by
  refine ⟨?_, ?_, ?_, ?_⟩ <;>
    simp only [aggregateRecords, fetchAuctionData, fetchSentimentAnalysis,
      fetchEconomicIndicators, fetchNftData] <;>
    exact isObj_objOrErr _

/-- C5 counterexample: when the market-data call raises, the stored record
is the bare `\x7b"error": str(e)\x7d` dict: it carries no source name and
its message is free-form, not an error kind from
`\x7btimeout, unavailable, malformed_response\x7d`. -/
theorem C5_cex :
    fetchAuctionData "t0" (.error (.raised "connection reset")) =
      .obj [("error", .str "connection reset")] ∧
    lookupKV [("error", JVal.str "connection reset")] "source" = none ∧
    ("connection reset" : String) ∉
      (["timeout", "unavailable", "malformed_response"] : List String) := by
  exact ⟨rfl, rfl, by decide⟩

/-- C5 amended: no per-source time-box exists in the adapters; on any error
each source's record is the untyped `\x7b"error": str(e)\x7d` dict, carrying
neither the source name nor a typed error kind. -/
theorem C5_amended (now : String) (f : String → ℚ) (e : PyExc) :
    fetchAuctionData now (.error e) = errDict e ∧
    fetchSentimentAnalysis f (.error e) = errDict e ∧
    fetchEconomicIndicators now (.error e) = errDict e ∧
    fetchNftData (.error e) = errDict e := by
  exact ⟨rfl, rfl, rfl, rfl⟩

/-- C7 counterexample: a persisted pair whose index holds two vectors but
whose document list holds one loads verbatim — the store is not
reinitialized empty on record-count mismatch. -/
theorem C7_cex :
    (initVectorStore ⟨true, some ⟨2, [[1, 1], [2, 2]]⟩,
        some [⟨"doc0", .str "src", "t0"⟩]⟩ 2).documents.length = 1 ∧
    ((initVectorStore ⟨true, some ⟨2, [[1, 1], [2, 2]]⟩,
        some [⟨"doc0", .str "src", "t0"⟩]⟩ 2).index.map
      (fun i => i.vecs.length)) = some 2 ∧
    (2 : ℕ) ≠ 1 := by
  exact ⟨rfl, rfl, by decide⟩

/-- C7 amended: initialization never raises; with no persisted directory it
creates an empty index of the configured dimension; when both artifacts are
readable they are loaded exactly as persisted, with no record-count parity
verification; a missing/unreadable artifact degrades to the empty store. -/
theorem C7_amended (fs : FS) (dim : ℕ) :
    (fs.dirExists = false → initVectorStore fs dim = ⟨some ⟨dim, []⟩, []⟩) ∧
    (∀ idx docs, fs.dirExists = true → fs.indexFile = some idx →
      fs.docsFile = some docs → initVectorStore fs dim = ⟨some idx, docs⟩) ∧
    ((fs.indexFile = none ∨ fs.docsFile = none) →
      initVectorStore fs dim = ⟨some ⟨dim, []⟩, []⟩) := by
  obtain ⟨d, xf, df⟩ := fs
  refine ⟨?_, ?_, ?_⟩
  · intro h
    simp only at h
    simp [initVectorStore, h]
  · intro idx docs hd hx hdoc
    simp only at hd hx hdoc
    subst hd hx hdoc
    simp [initVectorStore]
  · intro h
    simp only at h
    cases h with
    | inl h =>
      subst h
      cases d <;> simp [initVectorStore]
    | inr h =>
      subst h
      cases d <;> cases xf <;> simp [initVectorStore]

/-- C7 amended witness: a mismatched persisted pair (two vectors, one
document) is loaded verbatim on initialization. -/
theorem C7_amended_w :
    initVectorStore ⟨true, some ⟨2, [[1, 1], [2, 2]]⟩,
        some [⟨"doc0", .str "src", "t0"⟩]⟩ 2 =
      ⟨some ⟨2, [[1, 1], [2, 2]]⟩, [⟨"doc0", .str "src", "t0"⟩]⟩ :=
  (C7_amended ⟨true, some ⟨2, [[1, 1], [2, 2]]⟩, some [⟨"doc0", .str "src", "t0"⟩]⟩ 2).2.1
    ⟨2, [[1, 1], [2, 2]]⟩ [⟨"doc0", .str "src", "t0"⟩] rfl rfl rfl

/-- C8 counterexample: with the store able to persist, an embedding-provider
failure does not surface an error and does have an effect: the ingest
appends a record with a zero embedding and reports success. -/
theorem C8_cex :
    updateKnowledgeBase ⟨some ⟨2, []⟩, []⟩ ⟨true, none, none⟩ 2
        [("source", .str "news"), ("content", .str "obs-1")]
        ⟨.providerFail, true, true, "t0"⟩ =
      (⟨some ⟨2, [[0, 0]]⟩, [⟨"obs-1", .str "news", "t0"⟩]⟩,
       ⟨true, some ⟨2, [[0, 0]]⟩, some [⟨"obs-1", .str "news", "t0"⟩]⟩,
       kbSuccess (.str "news")) := rfl

/-- C8 amended: a failure inside the embedding provider is swallowed by
`encode`, which substitutes a zero vector, so the ingest appends a
zero-embedding record and reports success; only an absent embedding model
raises before any mutation, in which case the call returns the untyped
error dict and leaves both the in-memory state and the files unchanged. -/
theorem C8_amended (st : EngineState) (fs : FS) (dim : ℕ)
    (data : List (String × JVal)) (oc1 oc2 : IngestOutcome) (idx : IndexData)
    (hidx : st.index = some idx) (hdim : idx.dim = dim) (hdir : fs.dirExists = true)
    (h1 : oc1.embed = .providerFail) (h2 : oc1.writeIndexOk = true)
    (h3 : oc1.writeDocsOk = true) (h4 : oc2.embed = .noModel) :
    updateKnowledgeBase st fs dim data oc1 =
      (⟨some ⟨dim, idx.vecs ++ [List.replicate dim 0]⟩,
        st.documents ++ [⟨dataText data, jGetD data "source" (.str "unknown"), oc1.now⟩]⟩,
       ⟨true, some ⟨dim, idx.vecs ++ [List.replicate dim 0]⟩,
        some (st.documents ++ [⟨dataText data, jGetD data "source" (.str "unknown"), oc1.now⟩])⟩,
       kbSuccess (jGetD data "source" (.str "unknown"))) ∧
    updateKnowledgeBase st fs dim data oc2 =
      (st, fs, errDict (.attributeError "NoneType object has no attribute encode")) := by
  obtain ⟨sidx, docs⟩ := st
  obtain ⟨d, xf, df⟩ := fs
  simp only at hidx hdir
  subst hidx hdir
  constructor
  · simp only [updateKnowledgeBase, h1, encodeOne, List.length_replicate, hdim, ne_eq,
      not_true_eq_false, if_false, h2, h3, Bool.not_true, Bool.false_eq_true]
  · simp only [updateKnowledgeBase, h4, encodeOne]

/-- When the generation call raises, the whole try-block of
`get_asset_price` raises (whatever the earlier steps did). -/
theorem mainPath_gen_error (aid now : String) (md : List (String × JVal))
    (o : Oracles) (e : PyExc) (hg : o.generation = .error e) :
    ∃ e2, mainPath aid md o now = .error e2 := by
  cases hbc : blockchainSection (fetchNftData o.nft) o with
  | error eb =>
    exact ⟨eb, by simp only [mainPath, aggregateRecords, hbc, hg, bind, Except.bind]⟩
  | ok bd =>
    exact ⟨e, by simp only [mainPath, aggregateRecords, hbc, hg, bind, Except.bind]⟩

/-- The catch-all construction validates whenever the metadata's
`initial_price` is numeric or absent, yielding the
`\x7b"error": 1.0\x7d`-factor signal. -/
theorem handlerSignal_benign (aid now : String) (md : List (String × JVal))
    (h : benignPriceMd md = true) :
    handlerSignal aid md now =
      .ok ⟨aid, initialPriceOf md, 1 / 2, now, [("error", 1)], none, none⟩ := by
  unfold benignPriceMd at h
  cases hl : lookupKV md "initial_price" with
  | none =>
    simp only [handlerSignal, mkPriceSignal, jGetD, initialPriceOf, hl, Option.getD,
      pydFloat, pyFloatE, pydFactors, bind, Except.bind]
    rfl
  | some v =>
    rw [hl] at h
    cases v
    case num q =>
      simp only [handlerSignal, mkPriceSignal, jGetD, initialPriceOf, hl, Option.getD,
        pydFloat, pyFloatE, pydFactors, bind, Except.bind]
      rfl
    all_goals simp at h

/-- C2 counterexample: the generation call fails, yet `get_asset_price`
returns a `PriceSignal` (the catch-all one) rather than surfacing a
`generation_unavailable` error to the caller. -/
theorem C2_cex :
    getAssetPrice "asset1" none (offlineOracles (.error (.raised "generation down"))) "t0" =
      .ok ⟨"asset1", 10000, 1 / 2, "t0", [("error", 1)], none, none⟩ := rfl

/-- C2 amended: when the generation call fails (and the metadata's
`initial_price` is numeric or absent), no error reaches the caller: the
engine swallows the exception and returns the catch-all `PriceSignal`
(initial price or 10000, confidence 0.5, factors `\x7b"error": 1.0\x7d`),
exactly as it does for other internal failures. -/
theorem C2_amended (aid now : String) (mdO : Option (List (String × JVal)))
    (o : Oracles) (e : PyExc) (hg : o.generation = .error e)
    (hb : benignPriceMd (effectiveMd aid mdO) = true) :
    getAssetPrice aid mdO o now =
      .ok ⟨aid, initialPriceOf (effectiveMd aid mdO), 1 / 2, now,
        [("error", 1)], none, none⟩ := by
  obtain ⟨e2, hm⟩ := mainPath_gen_error aid now (effectiveMd aid mdO) o e hg
  simp only [getAssetPrice]
  rw [hm]
  exact handlerSignal_benign aid now (effectiveMd aid mdO) hb

/-- C2 amended witness at a concrete failing generation call. -/
theorem C2_amended_w :
    getAssetPrice "asset3" none (offlineOracles (.error (.raised "rate limited"))) "t3" =
      .ok ⟨"asset3", 10000, 1 / 2, "t3", [("error", 1)], none, none⟩ :=
  C2_amended "asset3" "t3" none (offlineOracles (.error (.raised "rate limited")))
    (.raised "rate limited") rfl rfl

/-- C1 counterexample: on a non-JSON generation output with the caller's
current price 500 in the metadata, the fallback signal's price is the fixed
default 10000 — the provided current price is not consulted — and the
returned signal's explanation is absent, not "parse failure". -/
theorem C1_cex :
    getAssetPrice "asset1" (some [("current_price", .num 500)])
        (offlineOracles (.ok "not json at all")) "t0" =
      .ok ⟨"asset1", 10000, 1 / 2, "t0", [("fallback", 1)], none, none⟩ ∧
    (10000 : ℚ) ≠ 500 ∧ (none : Option String) ≠ some "parse failure" := by
  refine ⟨?_, by decide, by decide⟩
  rfl

/-- C1 amended: when the generation output fails JSON decoding, the fallback
signal is deterministic and raise-free provided the metadata's
`initial_price` is numeric or absent: price is the metadata's
`initial_price` (else the fixed default 10000; the provided current price is
not consulted), confidence 0.5, factors `\x7b"fallback": 1.0\x7d`, and the
returned signal's explanation and trend are both absent.  Valid JSON with a
missing or non-numeric required field instead takes the catch-all path with
factors `\x7b"error": 1.0\x7d`. -/
theorem C1_amended (aid now text : String) (md : List (String × JVal))
    (o : Oracles) (bd : JVal) (hmd : md.isEmpty = false)
    (hb : benignPriceMd md = true)
    (hbc : blockchainSection (fetchNftData o.nft) o = .ok bd)
    (hg : o.generation = .ok text) (hx : extractAttempt text = none) :
    getAssetPrice aid (some md) o now =
      .ok ⟨aid, initialPriceOf md, 1 / 2, now, [("fallback", 1)], none, none⟩ := by
  unfold benignPriceMd at hb
  unfold getAssetPrice effectiveMd
  simp only [hmd, Bool.false_eq_true, if_false]
  simp only [mainPath, aggregateRecords, hbc, hg, bind, Except.bind, extractParsed, hx]
  cases hl : lookupKV md "initial_price" with
  | none =>
    simp only [initialPriceOf, jGetD, hl, Option.getD, pyGetItem, lookupKV,
      pyFloatE, mkPriceSignal, pydFloat, pydFactors, bind, Except.bind]
    rfl
  | some v =>
    rw [hl] at hb
    cases v
    case num q =>
      simp only [initialPriceOf, jGetD, hl, Option.getD, pyGetItem, lookupKV,
        pyFloatE, mkPriceSignal, pydFloat, pydFactors, bind, Except.bind]
      rfl
    all_goals simp at hb

/-- C1 amended witness: non-JSON output, metadata carrying only a current
price — the fallback prices at the fixed default 10000. -/
theorem C1_amended_w :
    getAssetPrice "asset1" (some [("current_price", .num 500)])
        (offlineOracles (.ok "not json at all")) "t0" =
      .ok ⟨"asset1", 10000, 1 / 2, "t0", [("fallback", 1)], none, none⟩ :=
  C1_amended "asset1" "t0" "not json at all" [("current_price", .num 500)]
    (offlineOracles (.ok "not json at all")) (.obj [("available", .bool false)])
    rfl rfl rfl rfl rfl

/-- C3 counterexample: a parsed result with price −5 and confidence 1.5 is
stored verbatim: the signal's confidence lies outside [0,1] and its price is
negative — neither clamping nor non-negativity coercion happens. -/
theorem C3_cex :
    getAssetPrice "asset1" none
        (offlineOracles (.ok "\x7b\"price\": -5, \"confidence_score\": 1.5, \"factors\": \x7b\"m\": 1.0\x7d\x7d"))
        "t0" =
      .ok ⟨"asset1", -5, mkRat 3 2, "t0", [("m", 1)], none, none⟩ ∧
    ¬(mkRat 3 2 ≤ 1) ∧ ¬((0 : ℚ) ≤ -5) := by
  refine ⟨?_, by decide, by decide⟩
  rfl

/-- C3 amended: a successfully parsed result with numeric `price` and
`confidence_score` and a numeric-valued `factors` dict is stored exactly as
parsed — the price is not coerced to be non-negative and the confidence is
not clamped into [0,1]. -/
theorem C3_amended (aid now text : String) (mdO : Option (List (String × JVal)))
    (o : Oracles) (bd : JVal) (fs : List (String × JVal)) (p c : ℚ)
    (gs : List (String × JVal)) (fac : List (String × ℚ))
    (hbc : blockchainSection (fetchNftData o.nft) o = .ok bd)
    (hg : o.generation = .ok text)
    (hx : extractAttempt text = some (.obj fs))
    (hp : lookupKV fs "price" = some (.num p))
    (hc : lookupKV fs "confidence_score" = some (.num c))
    (hf : lookupKV fs "factors" = some (.obj gs))
    (hfac : pydFactors (.obj gs) = .ok fac) :
    getAssetPrice aid mdO o now = .ok ⟨aid, p, c, now, fac, none, none⟩ := by
  unfold getAssetPrice
  simp only [mainPath, aggregateRecords, hbc, hg, bind, Except.bind, extractParsed, hx,
    pyGetItem, hp, hc, hf, pyFloatE, mkPriceSignal, pydFloat, hfac]

/-- C3 amended witness: confidence 1.4 (out of range) is stored unclamped. -/
theorem C3_amended_w :
    getAssetPrice "asset4" none
        (offlineOracles (.ok "\x7b\"price\": 250, \"confidence_score\": 1.4, \"factors\": \x7b\"macro\": 0.5\x7d\x7d"))
        "t4" =
      .ok ⟨"asset4", 250, mkRat 7 5, "t4", [("macro", mkRat 1 2)], none, none⟩ :=
  C3_amended "asset4" "t4"
    "\x7b\"price\": 250, \"confidence_score\": 1.4, \"factors\": \x7b\"macro\": 0.5\x7d\x7d"
    none (offlineOracles (.ok "\x7b\"price\": 250, \"confidence_score\": 1.4, \"factors\": \x7b\"macro\": 0.5\x7d\x7d"))
    (.obj [("available", .bool false)])
    [("price", .num 250), ("confidence_score", .num (mkRat 7 5)),
      ("factors", .obj [("macro", .num (mkRat 1 2))])]
    250 (mkRat 7 5) [("macro", .num (mkRat 1 2))] [("macro", mkRat 1 2)]
    rfl rfl (by rfl) rfl rfl rfl rfl

/-- C10 counterexample: with metadata whose `initial_price` is `None` and a
failing generation call, the catch-all `PriceSignal` construction itself
fails pydantic validation and the exception propagates out of
`get_asset_price` — the function is not total over all metadata. -/
theorem C10_cex :
    getAssetPrice "asset1" (some [("initial_price", JVal.null)])
        (offlineOracles (.error (.raised "generation down"))) "t0" =
      .error (.validationError "value is not a valid float") := rfl

/-- C10 amended: whenever the metadata's `initial_price` is numeric or
absent, `get_asset_price` is total — it returns a `PriceSignal` for every
behavior of the external calls — and whenever the try-block raises
(generation failure, missing parsed field, blockchain error, ...) the
returned signal is the catch-all shape: price = metadata `initial_price`
(default 10000), confidence 0.5, factors `\x7b"error": 1.0\x7d` — distinct
from the `\x7b"fallback": 1.0\x7d` parse-failure shape. -/
theorem C10_amended (aid now : String) (mdO : Option (List (String × JVal)))
    (o : Oracles) (hb : benignPriceMd (effectiveMd aid mdO) = true) :
    (∃ s, getAssetPrice aid mdO o now = .ok s) ∧
    (∀ e, mainPath aid (effectiveMd aid mdO) o now = .error e →
      getAssetPrice aid mdO o now =
        .ok ⟨aid, initialPriceOf (effectiveMd aid mdO), 1 / 2, now,
          [("error", 1)], none, none⟩) := by
  constructor
  · cases hm : mainPath aid (effectiveMd aid mdO) o now with
    | ok s => exact ⟨s, by simp only [getAssetPrice]; rw [hm]⟩
    | error e =>
      refine ⟨⟨aid, initialPriceOf (effectiveMd aid mdO), 1 / 2, now,
        [("error", 1)], none, none⟩, ?_⟩
      simp only [getAssetPrice]
      rw [hm]
      exact handlerSignal_benign aid now (effectiveMd aid mdO) hb
  · intro e hm
    simp only [getAssetPrice]
    rw [hm]
    exact handlerSignal_benign aid now (effectiveMd aid mdO) hb

/-- C10 amended witness: numeric initial price 25, generation down — the
catch-all signal prices at 25 with factors `\x7b"error": 1.0\x7d`. -/
theorem C10_amended_w :
    getAssetPrice "asset2" (some [("initial_price", JVal.num 25)])
        (offlineOracles (.error (.raised "gen down"))) "t2" =
      .ok ⟨"asset2", 25, 1 / 2, "t2", [("error", 1)], none, none⟩ :=
  (C10_amended "asset2" "t2" (some [("initial_price", JVal.num 25)])
      (offlineOracles (.error (.raised "gen down"))) rfl).2
    (.raised "gen down") rfl

/-- C8 amended witness: one provider-failure ingest appends a zero-embedding
record and reports success; one missing-model ingest changes nothing and
reports an error. -/
theorem C8_amended_w :
    updateKnowledgeBase ⟨some ⟨2, []⟩, []⟩ ⟨true, none, none⟩ 2
        [("source", JVal.str "news"), ("content", JVal.str "obs-2")]
        ⟨.providerFail, true, true, "t1"⟩ =
      (⟨some ⟨2, [[0, 0]]⟩, [⟨"obs-2", .str "news", "t1"⟩]⟩,
       ⟨true, some ⟨2, [[0, 0]]⟩, some [⟨"obs-2", .str "news", "t1"⟩]⟩,
       kbSuccess (.str "news")) ∧
    updateKnowledgeBase ⟨some ⟨2, []⟩, []⟩ ⟨true, none, none⟩ 2
        [("source", JVal.str "news"), ("content", JVal.str "obs-2")]
        ⟨.noModel, true, true, "t1"⟩ =
      (⟨some ⟨2, []⟩, []⟩, ⟨true, none, none⟩,
       errDict (.attributeError "NoneType object has no attribute encode")) :=
  C8_amended ⟨some ⟨2, []⟩, []⟩ ⟨true, none, none⟩ 2
    [("source", JVal.str "news"), ("content", JVal.str "obs-2")]
    ⟨.providerFail, true, true, "t1"⟩ ⟨.noModel, true, true, "t1"⟩ ⟨2, []⟩
    rfl rfl rfl rfl rfl rfl rfl

/-- One successful ingest step from a well-formed state: both the in-memory
pair and the persisted pair advance together by the new record. -/
theorem updateKnowledgeBase_ok (dim : ℕ) (vecs : List (List ℚ))
    (docs : List Document) (fs : FS) (data : List (String × JVal))
    (oc : IngestOutcome) (v : List ℚ) (hdir : fs.dirExists = true)
    (hemb : oc.embed = .vec v) (hlen : v.length = dim)
    (hwi : oc.writeIndexOk = true) (hwd : oc.writeDocsOk = true) :
    updateKnowledgeBase ⟨some ⟨dim, vecs⟩, docs⟩ fs dim data oc =
      (⟨some ⟨dim, vecs ++ [v]⟩, docs ++ [mkDocument (data, oc)]⟩,
       ⟨true, some ⟨dim, vecs ++ [v]⟩, some (docs ++ [mkDocument (data, oc)])⟩,
       kbSuccess (jGetD data "source" (.str "unknown"))) := by
  obtain ⟨d, xf, df⟩ := fs
  simp only at hdir
  subst hdir
  simp only [updateKnowledgeBase, hemb, encodeOne, hlen, mkDocument, ne_eq,
    not_true_eq_false, if_false, hwi, hwd, Bool.not_true, Bool.false_eq_true]

/-- Sequential runs of well-formed ingests from a well-formed state append
one record per request to both the store and (when at least one request ran)
the persisted pair. -/
theorem runIngests_ok (dim : ℕ) :
    ∀ (reqs : List (List (String × JVal) × IngestOutcome)) (vecs : List (List ℚ))
      (docs : List Document) (fs : FS),
      (∀ r ∈ reqs, okIngestB dim r = true) → fs.dirExists = true →
      ∃ fs2,
        runIngests dim (⟨some ⟨dim, vecs⟩, docs⟩, fs) reqs =
          (⟨some ⟨dim, vecs ++ reqs.map (fun r =>
              match r.2.embed with | .vec v => v | _ => [])⟩,
            docs ++ reqs.map mkDocument⟩, fs2) ∧
        fs2.dirExists = true ∧
        (reqs = [] → fs2 = fs) ∧
        (reqs ≠ [] →
          fs2 = ⟨true, some ⟨dim, vecs ++ reqs.map (fun r =>
              match r.2.embed with | .vec v => v | _ => [])⟩,
            some (docs ++ reqs.map mkDocument)⟩) := by
  intro reqs
  induction reqs with
  | nil =>
    intro vecs docs fs _ hdir
    exact ⟨fs, by simp [runIngests], hdir, fun _ => rfl, fun h => absurd rfl h⟩
  | cons req rest ih =>
    intro vecs docs fs hok hdir
    obtain ⟨data, oc⟩ := req
    have hreq := hok _ (List.mem_cons_self _ _)
    unfold okIngestB at hreq
    simp only [Bool.and_eq_true] at hreq
    obtain ⟨⟨hv, hwi⟩, hwd⟩ := hreq
    cases hemb : oc.embed with
    | noModel => rw [hemb] at hv; simp at hv
    | providerFail => rw [hemb] at hv; simp at hv
    | vec v =>
      rw [hemb] at hv
      simp only [decide_eq_true_eq] at hv
      have hstep := updateKnowledgeBase_ok dim vecs docs fs data oc v hdir hemb hv hwi hwd
      obtain ⟨fs2, hrun, hdir2, _, hne⟩ :=
        ih (vecs ++ [v]) (docs ++ [mkDocument (data, oc)])
          ⟨true, some ⟨dim, vecs ++ [v]⟩, some (docs ++ [mkDocument (data, oc)])⟩
          (fun r hr => hok r (List.mem_cons_of_mem _ hr)) rfl
      refine ⟨fs2, ?_, hdir2, fun h => by simp at h, fun _ => ?_⟩
      · simp only [runIngests, hstep, hrun, hemb]
        simp [hemb, List.append_assoc]
      · by_cases hr : rest = []
        · subst hr
          simp only [runIngests] at hrun
          simp only [Prod.mk.injEq] at hrun
          rw [← hrun.2]
          simp [hemb]
        · rw [hne hr]
          simp [hemb, List.append_assoc]

/-- C6: starting from a freshly initialized empty store on an existing
directory, a sequence of successful ingests keeps the similarity index and
the document list in lockstep, and a reload from disk recovers an index and
document list of equal length in which document i carries exactly the text
derived from the i-th ingested payload. -/
theorem C6_roundtrip (dim : ℕ)
    (reqs : List (List (String × JVal) × IngestOutcome))
    (h : ∀ r ∈ reqs, okIngestB dim r = true) :
    ∃ idx,
      (initVectorStore
          (runIngests dim (⟨some ⟨dim, []⟩, []⟩, ⟨true, none, none⟩) reqs).2 dim).index =
        some idx ∧
      idx.vecs.length =
        (initVectorStore
          (runIngests dim (⟨some ⟨dim, []⟩, []⟩, ⟨true, none, none⟩) reqs).2
          dim).documents.length ∧
      (initVectorStore
          (runIngests dim (⟨some ⟨dim, []⟩, []⟩, ⟨true, none, none⟩) reqs).2
          dim).documents.map Document.text = reqs.map (fun r => dataText r.1) := by
  obtain ⟨fs2, hrun, _, hnil, hne⟩ :=
    runIngests_ok dim reqs [] [] ⟨true, none, none⟩ h rfl
  by_cases hr : reqs = []
  · subst hr
    exact ⟨⟨dim, []⟩, rfl, rfl, rfl⟩
  · rw [hrun, hne hr]
    refine ⟨⟨dim, List.map (fun r =>
      match r.2.embed with | .vec v => v | _ => []) reqs⟩, ?_, ?_, ?_⟩
    · simp [initVectorStore]
    · simp [initVectorStore]
    · simp only [initVectorStore, List.nil_append, if_true]
      simp [List.map_map, Function.comp, mkDocument]

/-- C6 witness: two concrete ingests then a reload — two documents, two
index vectors, texts in ingest order. -/
theorem C6_roundtrip_w :
    ∃ idx,
      (initVectorStore
          (runIngests 2 (⟨some ⟨2, []⟩, []⟩, ⟨true, none, none⟩)
            [([("source", JVal.str "news"), ("content", JVal.str "obs-a")],
              ⟨.vec [1, 2], true, true, "t1"⟩),
             ([("source", JVal.str "auction"), ("content", JVal.str "obs-b")],
              ⟨.vec [3, 4], true, true, "t2"⟩)]).2 2).index = some idx ∧
      idx.vecs.length =
        (initVectorStore
          (runIngests 2 (⟨some ⟨2, []⟩, []⟩, ⟨true, none, none⟩)
            [([("source", JVal.str "news"), ("content", JVal.str "obs-a")],
              ⟨.vec [1, 2], true, true, "t1"⟩),
             ([("source", JVal.str "auction"), ("content", JVal.str "obs-b")],
              ⟨.vec [3, 4], true, true, "t2"⟩)]).2 2).documents.length ∧
      (initVectorStore
          (runIngests 2 (⟨some ⟨2, []⟩, []⟩, ⟨true, none, none⟩)
            [([("source", JVal.str "news"), ("content", JVal.str "obs-a")],
              ⟨.vec [1, 2], true, true, "t1"⟩),
             ([("source", JVal.str "auction"), ("content", JVal.str "obs-b")],
              ⟨.vec [3, 4], true, true, "t2"⟩)]).2 2).documents.map Document.text =
        [([("source", JVal.str "news"), ("content", JVal.str "obs-a")],
           (⟨.vec [1, 2], true, true, "t1"⟩ : IngestOutcome)),
         ([("source", JVal.str "auction"), ("content", JVal.str "obs-b")],
           (⟨.vec [3, 4], true, true, "t2"⟩ : IngestOutcome))].map
          (fun r => dataText r.1) :=
  C6_roundtrip 2
    [([("source", JVal.str "news"), ("content", JVal.str "obs-a")],
      ⟨.vec [1, 2], true, true, "t1"⟩),
     ([("source", JVal.str "auction"), ("content", JVal.str "obs-b")],
      ⟨.vec [3, 4], true, true, "t2"⟩)]
    (by decide)

/-- C9: `update_knowledge_base` contains no await between entry and return,
so under the engine's cooperative event loop its append-then-persist section
runs without interleaving; N concurrent well-formed ingests therefore
execute as the sequential run of their bodies in some scheduler order, and
every such order yields exactly N records — in memory and in the persisted
document file — with no lost writes (each submitted text persisted exactly
as often as submitted) and no index/document length mismatch, persisted
index size included. -/
theorem C9_concurrent_ingest (dim : ℕ)
    (reqs order : List (List (String × JVal) × IngestOutcome))
    (hperm : order.Perm reqs) (h : ∀ r ∈ reqs, okIngestB dim r = true) :
    (runIngests dim (⟨some ⟨dim, []⟩, []⟩, ⟨true, none, none⟩) order).1.documents.length =
      reqs.length ∧
    (∃ idx,
      (runIngests dim (⟨some ⟨dim, []⟩, []⟩, ⟨true, none, none⟩) order).1.index =
        some idx ∧ idx.vecs.length = reqs.length) ∧
    ((runIngests dim (⟨some ⟨dim, []⟩, []⟩, ⟨true, none, none⟩) order).1.documents.map
        Document.text).Perm (reqs.map (fun r => dataText r.1)) ∧
    ((runIngests dim (⟨some ⟨dim, []⟩, []⟩, ⟨true, none, none⟩)
        order).2.docsFile.getD []).length = reqs.length ∧
    (((runIngests dim (⟨some ⟨dim, []⟩, []⟩, ⟨true, none, none⟩)
        order).2.indexFile.map (fun i => i.vecs.length)).getD 0 =
      ((runIngests dim (⟨some ⟨dim, []⟩, []⟩, ⟨true, none, none⟩)
        order).2.docsFile.getD []).length) ∧
    (((runIngests dim (⟨some ⟨dim, []⟩, []⟩, ⟨true, none, none⟩)
        order).2.docsFile.getD []).map
        Document.text).Perm (reqs.map (fun r => dataText r.1)) := by
  have horder : ∀ r ∈ order, okIngestB dim r = true := fun r hr => h r (hperm.mem_iff.mp hr)
  obtain ⟨fs2, hrun, _, hnil, hne⟩ :=
    runIngests_ok dim order [] [] ⟨true, none, none⟩ horder rfl
  have htext : ∀ (l : List (List (String × JVal) × IngestOutcome)),
      (l.map mkDocument).map Document.text = l.map (fun r => dataText r.1) := by
    intro l
    rw [List.map_map]
    congr 1
  have hperm2 := hperm.map (fun r => dataText r.1)
  by_cases hord : order = []
  · subst hord
    have hreqs : reqs = [] := hperm.symm.eq_nil
    subst hreqs
    exact ⟨rfl, ⟨⟨dim, []⟩, rfl, rfl⟩, List.Perm.refl _, rfl, rfl, List.Perm.refl _⟩
  · rw [hrun, hne hord]
    simp only [List.nil_append, Option.getD_some, Option.map_some]
    refine ⟨?_, ⟨⟨dim, order.map (fun r =>
        match r.2.embed with | .vec v => v | _ => [])⟩, rfl, ?_⟩, ?_, ?_, ?_, ?_⟩
    · simp [hperm.length_eq]
    · simp [hperm.length_eq]
    · rw [htext order]
      exact hperm2
    · simp [hperm.length_eq]
    · simp
    · rw [htext order]
      exact hperm2

/-- C9 witness: two concrete ingests executed in swapped order still yield
two records in memory and in the persisted files, matching index lengths,
and both texts. -/
theorem C9_concurrent_ingest_w :
    (runIngests 2 (⟨some ⟨2, []⟩, []⟩, ⟨true, none, none⟩)
        [([("content", JVal.str "obs-d")], ⟨.vec [5, 6], true, true, "t4"⟩),
         ([("content", JVal.str "obs-c")], ⟨.vec [7, 8], true, true, "t3"⟩)]).1.documents.length =
      2 ∧
    (∃ idx,
      (runIngests 2 (⟨some ⟨2, []⟩, []⟩, ⟨true, none, none⟩)
          [([("content", JVal.str "obs-d")], ⟨.vec [5, 6], true, true, "t4"⟩),
           ([("content", JVal.str "obs-c")], ⟨.vec [7, 8], true, true, "t3"⟩)]).1.index =
        some idx ∧ idx.vecs.length = 2) ∧
    ((runIngests 2 (⟨some ⟨2, []⟩, []⟩, ⟨true, none, none⟩)
        [([("content", JVal.str "obs-d")], ⟨.vec [5, 6], true, true, "t4"⟩),
         ([("content", JVal.str "obs-c")], ⟨.vec [7, 8], true, true, "t3"⟩)]).1.documents.map
        Document.text).Perm
      ([([("content", JVal.str "obs-c")], (⟨.vec [7, 8], true, true, "t3"⟩ : IngestOutcome)),
        ([("content", JVal.str "obs-d")], (⟨.vec [5, 6], true, true, "t4"⟩ : IngestOutcome))].map
        (fun r => dataText r.1)) ∧
    ((runIngests 2 (⟨some ⟨2, []⟩, []⟩, ⟨true, none, none⟩)
        [([("content", JVal.str "obs-d")], ⟨.vec [5, 6], true, true, "t4"⟩),
         ([("content", JVal.str "obs-c")],
           ⟨.vec [7, 8], true, true, "t3"⟩)]).2.docsFile.getD []).length = 2 ∧
    (((runIngests 2 (⟨some ⟨2, []⟩, []⟩, ⟨true, none, none⟩)
        [([("content", JVal.str "obs-d")], ⟨.vec [5, 6], true, true, "t4"⟩),
         ([("content", JVal.str "obs-c")],
           ⟨.vec [7, 8], true, true, "t3"⟩)]).2.indexFile.map
        (fun i => i.vecs.length)).getD 0 =
      ((runIngests 2 (⟨some ⟨2, []⟩, []⟩, ⟨true, none, none⟩)
        [([("content", JVal.str "obs-d")], ⟨.vec [5, 6], true, true, "t4"⟩),
         ([("content", JVal.str "obs-c")],
           ⟨.vec [7, 8], true, true, "t3"⟩)]).2.docsFile.getD []).length) ∧
    (((runIngests 2 (⟨some ⟨2, []⟩, []⟩, ⟨true, none, none⟩)
        [([("content", JVal.str "obs-d")], ⟨.vec [5, 6], true, true, "t4"⟩),
         ([("content", JVal.str "obs-c")],
           ⟨.vec [7, 8], true, true, "t3"⟩)]).2.docsFile.getD []).map
        Document.text).Perm
      ([([("content", JVal.str "obs-c")], (⟨.vec [7, 8], true, true, "t3"⟩ : IngestOutcome)),
        ([("content", JVal.str "obs-d")], (⟨.vec [5, 6], true, true, "t4"⟩ : IngestOutcome))].map
        (fun r => dataText r.1)) :=
  C9_concurrent_ingest 2
    [([("content", JVal.str "obs-c")], ⟨.vec [7, 8], true, true, "t3"⟩),
     ([("content", JVal.str "obs-d")], ⟨.vec [5, 6], true, true, "t4"⟩)]
    [([("content", JVal.str "obs-d")], ⟨.vec [5, 6], true, true, "t4"⟩),
     ([("content", JVal.str "obs-c")], ⟨.vec [7, 8], true, true, "t3"⟩)]
    (List.Perm.swap _ _ _) (by decide)

end AIPricing
